import Mathlib

/-!
Verification of the tracing propagation and span-creation logic of
`pkg/util/tracing/tracer.go`.

The Go code is shallowly embedded: `uint64` values become `Nat` together
with explicit `< 2^64` bounds where they matter, Go maps become
association lists with last-write-wins update, and the mutation of a
text-map carrier by `Inject` becomes the list of `Set` calls it performs.
-/

set_option maxHeartbeats 1000000

namespace Tracing

/-- Baggage key marking snowball traces (tracer.go:39, `Snowball = "sb"`). -/
def Snowball : String := "sb"

/-- Key prefix for tracer state fields (tracer.go:50). -/
def prefixTracerState : String := "ot-tracer-"

/-- Key prefix for baggage entries (tracer.go:51). -/
def prefixBaggage : String := "ot-baggage-"

/-- Carrier key for the trace ID (tracer.go:53). -/
def fieldNameTraceID : String := prefixTracerState ++ "traceid"

/-- Carrier key for the span ID (tracer.go:54). -/
def fieldNameSpanID : String := prefixTracerState ++ "spanid"

/-- Carrier key for the sampled marker (tracer.go:55). -/
def fieldNameSampled : String := prefixTracerState ++ "sampled"

/-! ### Hexadecimal formatting and parsing

`strconv.FormatUint(x, 16)` and `strconv.ParseUint(v, 16, 64)` from the Go
standard library, restricted to the `uint64` domain used by the tracer. -/

/-- The lowercase hexadecimal digit character for `d < 16`, as used by
`strconv.FormatUint` (digit table "0123456789abcdef"). -/
def hexDigitChar (d : Nat) : Char :=
  if d < 10 then Char.ofNat (48 + d) else Char.ofNat (87 + d)

/-- The value of a hexadecimal digit character; `strconv.ParseUint` with base
16 accepts both lowercase and uppercase digits. -/
def hexDigitVal (c : Char) : Option Nat :=
  if 48 ≤ c.toNat ∧ c.toNat ≤ 57 then some (c.toNat - 48)
  else if 97 ≤ c.toNat ∧ c.toNat ≤ 102 then some (c.toNat - 87)
  else if 65 ≤ c.toNat ∧ c.toNat ≤ 70 then some (c.toNat - 55)
  else none

/-- Little-endian hexadecimal digits of `n`, with explicit fuel so that the
recursion is structural; `fuel = 64` is enough for every `uint64`. -/
def toHexLEAux : Nat → Nat → List Nat
  | 0, _ => []
  | fuel + 1, n => if n = 0 then [] else n % 16 :: toHexLEAux fuel (n / 16)

/-- `strconv.FormatUint n 16` for `n < 2^64`: lowercase hexadecimal with no
leading zeros, and `"0"` for zero. -/
def formatHex (n : Nat) : String :=
  if n = 0 then "0" else String.mk (((toHexLEAux 64 n).reverse).map hexDigitChar)

/-- Digit-accumulation loop of `strconv.ParseUint`: fails on the first
non-digit character. -/
def parseHexCore : List Char → Nat → Option Nat
  | [], acc => some acc
  | c :: cs, acc =>
    match hexDigitVal c with
    | none => none
    | some d => parseHexCore cs (16 * acc + d)

/-- `strconv.ParseUint v 16 64`: rejects the empty string, any non-digit
character, and any value that does not fit in 64 bits. -/
def parseHex (s : String) : Option Nat :=
  if s.data = [] then none
  else
    match parseHexCore s.data 0 with
    | none => none
    | some n => if n < 2 ^ 64 then some n else none

theorem hexDigitVal_hexDigitChar : ∀ d < 16, hexDigitVal (hexDigitChar d) = some d := by decide

theorem parseHexCore_append (l1 l2 : List Char) (acc : Nat) :
    parseHexCore (l1 ++ l2) acc =
      match parseHexCore l1 acc with
      | none => none
      | some a => parseHexCore l2 a := by
  induction l1 generalizing acc with
  | nil => simp [parseHexCore]
  | cons c cs ih =>
    simp only [List.cons_append, parseHexCore]
    cases hexDigitVal c with
    | none => simp
    | some d => simp [ih]

theorem toHexLEAux_succ (fuel n : Nat) (hn : n ≠ 0) :
    toHexLEAux (fuel + 1) n = n % 16 :: toHexLEAux fuel (n / 16) := by
  simp [toHexLEAux, hn]

theorem parseHexCore_toHexLEAux (fuel : Nat) :
    ∀ n acc, n < 16 ^ fuel →
      parseHexCore (((toHexLEAux fuel n).reverse).map hexDigitChar) acc =
        some (acc * 16 ^ (toHexLEAux fuel n).length + n) := by
  induction fuel with
  | zero =>
    intro n acc h
    interval_cases n
    simp [toHexLEAux, parseHexCore]
  | succ fuel ih =>
    intro n acc h
    by_cases hn : n = 0
    · simp [toHexLEAux, hn, parseHexCore]
    · rw [toHexLEAux_succ fuel n hn]
      have hdiv : n / 16 < 16 ^ fuel := by
        rw [Nat.div_lt_iff_lt_mul (by norm_num : 0 < 16)]
        calc n < 16 ^ (fuel + 1) := h
        _ = 16 ^ fuel * 16 := by rw [pow_succ]
      have hmod : hexDigitVal (hexDigitChar (n % 16)) = some (n % 16) :=
        hexDigitVal_hexDigitChar (n % 16) (Nat.mod_lt n (by norm_num))
      simp only [List.reverse_cons, List.map_append, List.map_cons, List.map_nil,
        parseHexCore_append, ih (n / 16) acc hdiv]
      simp only [parseHexCore, hmod]
      have : 16 * (acc * 16 ^ (toHexLEAux fuel (n / 16)).length + n / 16) + n % 16 =
          acc * 16 ^ ((toHexLEAux fuel (n / 16)).length + 1) + n := by
        have hd := Nat.div_add_mod n 16
        ring_nf
        omega
      simp [List.length_cons, this]

/-- Round trip: parsing the formatted hexadecimal of a `uint64` recovers it. -/
theorem parseHex_formatHex (n : Nat) (h : n < 2 ^ 64) : parseHex (formatHex n) = some n := by
  by_cases hn : n = 0
  · subst hn; decide
  · have hne : toHexLEAux 64 n = n % 16 :: toHexLEAux 63 (n / 16) :=
      toHexLEAux_succ 63 n hn
    have hbound : n < 16 ^ 64 := by
      calc n < 2 ^ 64 := h
      _ ≤ 16 ^ 64 := by norm_num
    have hcore := parseHexCore_toHexLEAux 64 n 0 hbound
    unfold formatHex parseHex
    rw [if_neg hn, if_neg]
    · rw [hcore]
      simp only [Nat.zero_mul, Nat.zero_add]
      rw [if_pos (by exact_mod_cast h)]
    · show ¬ (((toHexLEAux 64 n).reverse).map hexDigitChar = [])
      rw [hne]
      simp

/-! ### Go string helpers

`strings.ToLower`, `strings.HasPrefix` and `strings.TrimPrefix` as used by
`Tracer.Extract` (the keys involved are ASCII). -/

/-- `strings.ToLower`. -/
def goToLower (s : String) : String := String.mk (s.data.map Char.toLower)

/-- `strings.TrimPrefix s p`: drops `p` from the front of `s` when it is a
prefix, otherwise returns `s` unchanged. -/
def goTrimPrefix (s p : String) : String :=
  if p.data.isPrefixOf s.data then String.mk (s.data.drop p.data.length) else s

/-! ### Association-list model of Go string maps -/

/-- Go map read `m[k]` with the zero-value default `""`. -/
def mapGet (m : List (String × String)) (k : String) : String :=
  (((m.find? (fun kv => kv.fst == k)).map Prod.snd).getD "")

/-- Go map write `m[k] = v`: replaces the binding when the key is present,
otherwise appends it. -/
def mapPut (m : List (String × String)) (k v : String) : List (String × String) :=
  if m.any (fun kv => kv.fst == k) then
    m.map (fun kv => if kv.fst == k then (k, v) else kv)
  else m ++ [(k, v)]

/-! ### Data model

`spanContext` as used by tracer.go: identity, baggage, the recording group
and type, and the optional lightstep (external backend) shadow context.
Recording groups are allocated with `new(spanGroup)`; a group is modelled by
the identity of that allocation, a natural number. -/

/-- Shadow context produced by the external (lightstep) backend. Modelled
from the spec: the backend is an opaque external collaborator; the only data
the tracer reads out of a shadow context are the trace and span IDs that the
backend reports via `getLightstepSpanIDs` (tracer.go:160-172). -/
structure LSSpanContext where
  traceID : Nat
  spanID : Nat
  deriving DecidableEq, Repr

/-- Recording mode of a span. Modelled from the spec: the enum lives in
span.go, which is not included; the spec names the two values NotRecording
and SnowballRecording. -/
inductive RecordingType where
  | NotRecording
  | SnowballRecording
  deriving DecidableEq, Repr

/-- The concrete `*spanContext` of tracer.go: trace/span IDs, baggage, the
recording group (identity of the `spanGroup` allocation) with its type, and
the optional lightstep shadow context. -/
structure SpanContext where
  TraceID : Nat
  SpanID : Nat
  Baggage : List (String × String)
  recordingGroup : Option Nat
  recordingType : RecordingType
  lightstep : Option LSSpanContext
  deriving DecidableEq, Repr

/-- A value of the `opentracing.SpanContext` interface as it can reach
`Inject`, `Extract` callers and `StartSpan` references: the package's
`noopSpanContext`, its concrete `*spanContext`, or a foreign implementation
from another tracer. -/
inductive OTSpanCtx where
  | noop
  | real (sc : SpanContext)
  | foreign
  deriving DecidableEq, Repr

/-- The opentracing errors returned by Inject/Extract, plus the error class
an external backend extraction can surface. -/
inductive OTError where
  | unsupportedFormat
  | invalidCarrier
  | invalidSpanContext
  | spanContextCorrupted
  | lightstepExtractFailed
  deriving DecidableEq, Repr

/-- The `format` argument of Inject/Extract: the two supported flat text
forms and the unsupported binary form. -/
inductive OTFormat where
  | httpHeaders
  | textMap
  | binary
  deriving DecidableEq, Repr

/-- A carrier: its key/value entries together with the capabilities the Go
code tests by type assertion (`opentracing.TextMapWriter` /
`opentracing.TextMapReader`). -/
structure Carrier where
  entries : List (String × String)
  textMapWriter : Bool
  textMapReader : Bool
  deriving DecidableEq, Repr

/-- Is the context the `noopSpanContext` type? (Go type assertion
`osc.(noopSpanContext)`.) -/
def isNoopCtx : OTSpanCtx → Bool
  | OTSpanCtx.noop => true
  | _ => false

/-! ### Inject (tracer.go:346-379) -/

/-- The `Set` calls Inject performs for a concrete span context: trace and
span IDs in lowercase hexadecimal, the fixed sampled marker, then one
prefixed entry per baggage item (tracer.go:370-376). -/
def injectWrites (sc : SpanContext) : List (String × String) :=
  (fieldNameTraceID, formatHex sc.TraceID) ::
    (fieldNameSpanID, formatHex sc.SpanID) ::
      (fieldNameSampled, "true") ::
        sc.Baggage.map (fun kv => (prefixBaggage ++ kv.fst, kv.snd))

/-- `Tracer.Inject`: returns the error (or `none` on success) and the list of
key/value writes performed on the carrier. -/
def inject (osc : OTSpanCtx) (format : OTFormat) (carrier : Carrier) :
    Option OTError × List (String × String) :=
  if isNoopCtx osc then (none, [])
  else if format ≠ OTFormat.httpHeaders ∧ format ≠ OTFormat.textMap then
    (some OTError.unsupportedFormat, [])
  else if carrier.textMapWriter = false then (some OTError.invalidCarrier, [])
  else
    match osc with
    | OTSpanCtx.real sc => (none, injectWrites sc)
    | _ => (some OTError.invalidSpanContext, [])

/-! ### Extract (tracer.go:384-437) -/

/-- The lightstep tracer as Extract and StartSpan consume it. Modelled from
the spec: the external APM backend is an opaque collaborator; `newSpanCtx`
is the shadow context of a span it starts against an optional parent shadow
reference, and `extractCtx` is its own context extraction from a carrier. -/
structure LSTracer where
  newSpanCtx : Option LSSpanContext → LSSpanContext
  extractCtx : OTFormat → List (String × String) → Except OTError LSSpanContext

/-- The `ForeachKey` callback loop of Extract (tracer.go:397-420): keys are
lowercased, the trace/span ID fields are parsed as hexadecimal (a parse
failure aborts the whole iteration with the corrupted-context error), keys
carrying the baggage prefix add a baggage entry under the suffix of the
lowercased key, and all other keys are ignored. -/
def extractLoop : List (String × String) → SpanContext → Except OTError SpanContext
  | [], sc => Except.ok sc
  | (k, v) :: rest, sc =>
    if goToLower k = fieldNameTraceID then
      match parseHex v with
      | none => Except.error OTError.spanContextCorrupted
      | some n => extractLoop rest { sc with TraceID := n }
    else if goToLower k = fieldNameSpanID then
      match parseHex v with
      | none => Except.error OTError.spanContextCorrupted
      | some n => extractLoop rest { sc with SpanID := n }
    else if (prefixBaggage.data).isPrefixOf (goToLower k).data then
      extractLoop rest
        { sc with Baggage := mapPut sc.Baggage (goTrimPrefix (goToLower k) prefixBaggage) v }
    else extractLoop rest sc

/-- The zero-valued `spanContext` that Extract starts from (`var sc
spanContext`, tracer.go:395). -/
def emptySpanContext : SpanContext :=
  { TraceID := 0, SpanID := 0, Baggage := [], recordingGroup := none,
    recordingType := RecordingType.NotRecording, lightstep := none }

/-- `Tracer.Extract`: the returned span context (modelled as `Option` since
the Go interface return could in principle be nil) and the returned error.
`ls` is the current `getLightstep()` configuration. -/
def extract (ls : Option LSTracer) (format : OTFormat) (carrier : Carrier) :
    Option OTSpanCtx × Option OTError :=
  if format ≠ OTFormat.httpHeaders ∧ format ≠ OTFormat.textMap then
    (some OTSpanCtx.noop, some OTError.unsupportedFormat)
  else if carrier.textMapReader = false then (some OTSpanCtx.noop, some OTError.invalidCarrier)
  else
    match extractLoop carrier.entries emptySpanContext with
    | Except.error e => (some OTSpanCtx.noop, some e)
    | Except.ok sc =>
      if sc.TraceID = 0 ∧ sc.SpanID = 0 then (some OTSpanCtx.noop, none)
      else
        match ls with
        | none => (some (OTSpanCtx.real sc), none)
        | some t =>
          match t.extractCtx format carrier.entries with
          | Except.error e => (some OTSpanCtx.noop, some e)
          | Except.ok lsc => (some (OTSpanCtx.real { sc with lightstep := some lsc }), none)

/-! ### StartSpan (tracer.go:186-343) -/

/-- `opentracing.SpanReferenceType`: the two recognized relationship kinds
(tracer.go:223 filters on exactly these). -/
inductive RefType where
  | childOfRef
  | followsFromRef
  deriving DecidableEq, Repr

/-- The `opentracing.StartSpanOption` values the tracer handles: span
references (whose referenced context may be nil), a start-time override,
initial tags, and the package's `Recordable` option (tracer.go:174-183). -/
inductive StartSpanOption where
  | spanReference (ty : RefType) (referencedContext : Option OTSpanCtx)
  | startTimeOpt (t : Nat)
  | tagsOpt (tags : List (String × String))
  | recordableOpt
  deriving DecidableEq, Repr

/-- `opentracing.StartSpanOptions` accumulated by `o.Apply(&sso)`; a start
time of `0` models the zero `time.Time` (`IsZero`). -/
structure StartSpanOptions where
  References : List (RefType × Option OTSpanCtx)
  StartTime : Nat
  Tags : List (String × String)
  deriving DecidableEq, Repr

/-- One `o.Apply(&sso)` step together with the `recordableOption` type test
(tracer.go:209-214): references append in order, a later start time
overwrites, tag sets merge. -/
def applyOpt (acc : StartSpanOptions × Bool) (o : StartSpanOption) : StartSpanOptions × Bool :=
  match o with
  | StartSpanOption.spanReference ty c =>
    ({ acc.fst with References := acc.fst.References ++ [(ty, c)] }, acc.snd)
  | StartSpanOption.startTimeOpt t => ({ acc.fst with StartTime := t }, acc.snd)
  | StartSpanOption.tagsOpt ts =>
    ({ acc.fst with Tags := ts.foldl (fun m kv => mapPut m kv.fst kv.snd) acc.fst.Tags },
      acc.snd)
  | StartSpanOption.recordableOpt => (acc.fst, true)

/-- Folding `o.Apply(&sso)` over the options, also detecting the
`recordableOption` (tracer.go:207-214). -/
def buildOptions (opts : List StartSpanOption) : StartSpanOptions × Bool :=
  opts.foldl applyOpt (⟨[], 0, []⟩, false)

/-- The reference-scanning loop of tracer.go:222-245: skip nil and noop
contexts, take the first remaining reference as the parent; a foreign
context makes the unchecked type assertion
`r.ReferencedContext.(*spanContext)` panic (tracer.go:234). -/
def findParent : List (RefType × Option OTSpanCtx) → Except String (Option (RefType × SpanContext))
  | [] => Except.ok none
  | (_, none) :: rest => findParent rest
  | (_, some OTSpanCtx.noop) :: rest => findParent rest
  | (_, some OTSpanCtx.foreign) :: _ =>
    Except.error "interface conversion to spanContext failed"
  | (ty, some (OTSpanCtx.real sc)) :: _ => Except.ok (some (ty, sc))

/-- Recording group chosen for the child (tracer.go:235-242): inherit the
parent's active group, else allocate a fresh group (identity `fresh`) when
the parent's baggage carries a non-empty snowball entry. -/
def recGroupOf : Option (RefType × SpanContext) → Nat → Option Nat
  | some (_, sc), fresh =>
    match sc.recordingGroup with
    | some g => some g
    | none => if mapGet sc.Baggage Snowball ≠ "" then some fresh else none
  | none, _ => none

/-- Recording type matching `recGroupOf` (tracer.go:235-242). -/
def recTypeOf : Option (RefType × SpanContext) → RecordingType
  | some (_, sc) =>
    match sc.recordingGroup with
    | some _ => sc.recordingType
    | none =>
      if mapGet sc.Baggage Snowball ≠ "" then RecordingType.SnowballRecording
      else RecordingType.NotRecording
  | none => RecordingType.NotRecording

/-- Backend stickiness (tracer.go:246-250): drop the configured lightstep
tracer when a parent exists whose context carries no shadow context. -/
def adjustLS : Option (RefType × SpanContext) → Option LSTracer → Option LSTracer
  | some (_, sc), ls => if sc.lightstep = none then none else ls
  | none, ls => ls

/-- Ambient state read by one `StartSpan` call: the two dynamic settings
(`enableNetTrace.Get()` and `getLightstep()`), the current time, the two
`rand.Int63` draws, and the identity of a fresh `spanGroup` allocation. -/
structure Env where
  netTrace : Bool
  lightstep : Option LSTracer
  now : Nat
  randSpanID : Nat
  randTraceID : Nat
  freshGroup : Nat

/-- The real `span` struct as far as tracer.go populates it. -/
structure SpanData where
  operation : String
  startTime : Nat
  TraceID : Nat
  SpanID : Nat
  parentSpanID : Nat
  Baggage : List (String × String)
  Tags : List (String × String)
  recordingGroup : Option Nat
  recordingType : RecordingType
  lightstep : Option LSSpanContext
  netTr : Bool
  deriving DecidableEq, Repr

/-- Result of `StartSpan`: either the tracer's preallocated singleton
`noopSpan` (the code only ever returns `&t.noopSpan` on the no-op paths, so
this constructor models identity with that singleton) or a freshly
allocated real span. -/
inductive SpanResult where
  | noop
  | real (s : SpanData)
  deriving DecidableEq, Repr

/-- Modelled from the spec: `span.enableRecording` lives in span.go, which
is not included; it binds the span to the group and activates the given
recording type. -/
def enableRecording (s : SpanData) (group : Nat) (rt : RecordingType) : SpanData :=
  { s with recordingGroup := some group, recordingType := rt }

/-- Modelled from the spec: `span.SetTag` lives in span.go, which is not
included; it stores the tag in the span's tag map. -/
def setTag (s : SpanData) (k v : String) : SpanData :=
  { s with Tags := mapPut s.Tags k v }

/-- Apply a sequence of `SetTag` calls (the `for k, v := range` loops at
tracer.go:331-333 and 335-340). -/
def applyTags (sp : SpanData) (l : List (String × String)) : SpanData :=
  l.foldl (fun sp kv => setTag sp kv.fst kv.snd) sp

/-- Identity assignment of tracer.go:269-308: with a lightstep tracer, start
the shadow span and adopt its IDs, panicking (modelled as `Except.error`) if
the parent has no shadow context, if the backend reports a zero ID, or if
the adopted trace ID differs from the parent's; without one, draw a random
span ID and inherit the parent's trace ID or draw a random one. -/
def computeIDs (env : Env) (lsTr : Option LSTracer)
    (parentInfo : Option (RefType × SpanContext)) :
    Except String (Nat × Nat × Option LSSpanContext) :=
  match lsTr with
  | some ls =>
    match parentInfo with
    | some (_, sc) =>
      match sc.lightstep with
      | none => Except.error "lightstep span derived from non-lightstep span"
      | some plc =>
        let lc := ls.newSpanCtx (some plc)
        if lc.traceID = 0 ∨ lc.spanID = 0 then Except.error "lightstep did not inject IDs"
        else if lc.traceID ≠ sc.TraceID then
          Except.error "TraceID mismatch between parent and child spans"
        else Except.ok (lc.traceID, lc.spanID, some lc)
    | none =>
      let lc := ls.newSpanCtx none
      if lc.traceID = 0 ∨ lc.spanID = 0 then Except.error "lightstep did not inject IDs"
      else Except.ok (lc.traceID, lc.spanID, some lc)
  | none =>
    Except.ok
      (match parentInfo with
        | none => env.randTraceID
        | some (_, sc) => sc.TraceID,
      env.randSpanID, none)

/-- Materialization of the real span (tracer.go:259-342): start time
defaulting to now, identity assignment, recording activation, parent
linkage with baggage copy, initial tags, and the baggage-to-tags mirroring
when a sink is active. -/
def mkRealSpan (env : Env) (operationName : String) (sso : StartSpanOptions)
    (parentInfo : Option (RefType × SpanContext)) (recGroup : Option Nat)
    (recType : RecordingType) (lsTr : Option LSTracer) (netTrace : Bool) :
    Except String SpanResult :=
  match computeIDs env lsTr parentInfo with
  | Except.error e => Except.error e
  | Except.ok ids =>
    let baseSpan : SpanData :=
      { operation := operationName
        startTime := if sso.StartTime = 0 then env.now else sso.StartTime
        TraceID := ids.fst
        SpanID := ids.snd.fst
        parentSpanID := match parentInfo with | some (_, sc) => sc.SpanID | none => 0
        Baggage := match parentInfo with | some (_, sc) => sc.Baggage | none => []
        Tags := []
        recordingGroup := none
        recordingType := RecordingType.NotRecording
        lightstep := ids.snd.snd
        netTr := netTrace }
    let s1 :=
      match recGroup with
      | some g => enableRecording baseSpan g recType
      | none => baseSpan
    let s2 := applyTags s1 sso.Tags
    let s3 := if netTrace || lsTr.isSome then applyTags s2 s2.Baggage else s2
    Except.ok (SpanResult.real s3)

/-- The fast path guard of tracer.go:192-198: exactly one option, a span
reference whose referenced context is a `noopSpanContext`. -/
def isSingleNoopRef : List StartSpanOption → Bool
  | [StartSpanOption.spanReference _ (some OTSpanCtx.noop)] => true
  | _ => false

/-- The body of `StartSpan` past the fast path (tracer.go:200-342). -/
def startSpanSlow (env : Env) (operationName : String) (opts : List StartSpanOption) :
    Except String SpanResult :=
  if opts = [] ∧ env.netTrace = false ∧ env.lightstep.isNone = true then
    Except.ok SpanResult.noop
  else
    match findParent (buildOptions opts).fst.References with
    | Except.error e => Except.error e
    | Except.ok parentInfo =>
      if (buildOptions opts).snd = false ∧ recGroupOf parentInfo env.freshGroup = none ∧
          (adjustLS parentInfo env.lightstep).isNone = true ∧ env.netTrace = false then
        Except.ok SpanResult.noop
      else
        mkRealSpan env operationName (buildOptions opts).fst parentInfo
          (recGroupOf parentInfo env.freshGroup) (recTypeOf parentInfo)
          (adjustLS parentInfo env.lightstep) env.netTrace

/-- `Tracer.StartSpan` (tracer.go:186-343). -/
def startSpan (env : Env) (operationName : String) (opts : List StartSpanOption) :
    Except String SpanResult :=
  if isSingleNoopRef opts then Except.ok SpanResult.noop
  else startSpanSlow env operationName opts

/-- The parent reference `StartSpan` resolves from the supplied options. -/
def resolveParent (opts : List StartSpanOption) :
    Except String (Option (RefType × SpanContext)) :=
  findParent (buildOptions opts).fst.References

/-! ### Key-string lemmas -/

theorem goToLower_data (s : String) : (goToLower s).data = s.data.map Char.toLower := rfl

theorem goToLower_traceidKey : goToLower fieldNameTraceID = fieldNameTraceID := by decide

theorem goToLower_spanidKey : goToLower fieldNameSpanID = fieldNameSpanID := by decide

theorem goToLower_sampledKey : goToLower fieldNameSampled = fieldNameSampled := by decide

theorem goToLower_bagKey_data (x : String) :
    (goToLower (prefixBaggage ++ x)).data = prefixBaggage.data ++ x.data.map Char.toLower := by
  rw [goToLower_data, String.data_append, List.map_append,
    show prefixBaggage.data.map Char.toLower = prefixBaggage.data by decide]

theorem bagKey_ne_traceid (x : String) :
    goToLower (prefixBaggage ++ x) ≠ fieldNameTraceID := by
  intro h
  have hd := congrArg String.data h
  rw [goToLower_bagKey_data] at hd
  exact absurd ⟨_, hd⟩ (by decide : ¬ (prefixBaggage.data <+: fieldNameTraceID.data))

theorem bagKey_ne_spanid (x : String) :
    goToLower (prefixBaggage ++ x) ≠ fieldNameSpanID := by
  intro h
  have hd := congrArg String.data h
  rw [goToLower_bagKey_data] at hd
  exact absurd ⟨_, hd⟩ (by decide : ¬ (prefixBaggage.data <+: fieldNameSpanID.data))

theorem bagKey_isPrefixOf (x : String) :
    (prefixBaggage.data).isPrefixOf (goToLower (prefixBaggage ++ x)).data = true := by
  rw [goToLower_bagKey_data, List.isPrefixOf_iff_prefix]
  exact ⟨_, rfl⟩

theorem goTrimPrefix_append (x : List Char) :
    goTrimPrefix (String.mk (prefixBaggage.data ++ x)) prefixBaggage = String.mk x := by
  unfold goTrimPrefix
  rw [show (String.mk (prefixBaggage.data ++ x)).data = prefixBaggage.data ++ x from rfl]
  rw [if_pos (by rw [ List.isPrefixOf_iff_prefix]; exact ⟨_, rfl⟩)]
  rw [List.drop_left]

theorem goTrimPrefix_bagKey (x : String) (hx : goToLower x = x) :
    goTrimPrefix (goToLower (prefixBaggage ++ x)) prefixBaggage = x := by
  have hmap : x.data.map Char.toLower = x.data := by
    rw [← goToLower_data]; exact congrArg String.data hx
  have h2 : goToLower (prefixBaggage ++ x) = String.mk (prefixBaggage.data ++ x.data) := by
    have := goToLower_bagKey_data x
    rw [hmap] at this
    exact congrArg String.mk this
  rw [h2, goTrimPrefix_append]

/-! ### mapPut / extractLoop lemmas -/

theorem mapPut_notMem (m : List (String × String)) (k v : String)
    (h : ∀ kv ∈ m, kv.fst ≠ k) : mapPut m k v = m ++ [(k, v)] := by
  have hcond : m.any (fun kv => kv.fst == k) = false := by
    rw [List.any_eq_false]
    intro kv hkv
    simpa using h kv hkv
  simp [mapPut, hcond]

theorem extractLoop_traceidEntry (v : String) (rest : List (String × String))
    (sc : SpanContext) (n : Nat) (hv : parseHex v = some n) :
    extractLoop ((fieldNameTraceID, v) :: rest) sc =
      extractLoop rest { sc with TraceID := n } := by
  simp only [extractLoop]
  rw [if_pos goToLower_traceidKey, hv]

theorem extractLoop_spanidEntry (v : String) (rest : List (String × String))
    (sc : SpanContext) (n : Nat) (hv : parseHex v = some n) :
    extractLoop ((fieldNameSpanID, v) :: rest) sc =
      extractLoop rest { sc with SpanID := n } := by
  simp only [extractLoop]
  rw [if_neg (by decide : ¬ (goToLower fieldNameSpanID = fieldNameTraceID)),
    if_pos goToLower_spanidKey, hv]

theorem extractLoop_sampledEntry (v : String) (rest : List (String × String))
    (sc : SpanContext) :
    extractLoop ((fieldNameSampled, v) :: rest) sc = extractLoop rest sc := by
  simp only [extractLoop]
  rw [if_neg (by decide : ¬ (goToLower fieldNameSampled = fieldNameTraceID)),
    if_neg (by decide : ¬ (goToLower fieldNameSampled = fieldNameSpanID)),
    if_neg (by decide :
      ¬ ((prefixBaggage.data).isPrefixOf (goToLower fieldNameSampled).data = true))]

theorem extractLoop_bagmap (b : List (String × String)) :
    ∀ sc : SpanContext,
      (∀ kv ∈ b, goToLower kv.fst = kv.fst) →
      ((sc.Baggage ++ b).map Prod.fst).Nodup →
      extractLoop (b.map fun kv => (prefixBaggage ++ kv.fst, kv.snd)) sc =
        Except.ok { sc with Baggage := sc.Baggage ++ b } := by
  induction b with
  | nil => intro sc _ _; simp [extractLoop]
  | cons kv rest ih =>
    obtain ⟨k, v⟩ := kv
    intro sc hlow hnd
    have hk : goToLower k = k := hlow (k, v) (List.mem_cons_self _ _)
    have hnotmem : ∀ p ∈ sc.Baggage, p.fst ≠ k := by
      intro p hp hpk
      rw [List.map_append, List.nodup_append] at hnd
      exact hnd.2.2 (List.mem_map_of_mem Prod.fst hp) (by simp [hpk])
    simp only [List.map_cons, extractLoop]
    rw [if_neg (bagKey_ne_traceid k), if_neg (bagKey_ne_spanid k),
      if_pos (bagKey_isPrefixOf k), goTrimPrefix_bagKey k hk,
      mapPut_notMem sc.Baggage k v hnotmem]
    have hres := ih { sc with Baggage := sc.Baggage ++ [(k, v)] }
      (fun p hp => hlow p (List.mem_cons_of_mem _ hp))
      (by simpa [List.append_assoc] using hnd)
    rw [hres]
    simp [List.append_assoc]

/-! ### Claims about Inject and Extract -/

/-- C10: Inject checks for a no-op context before validating the format and
carrier: for every call with a no-op span context it returns success and
writes nothing, even when the requested format is unsupported or the
carrier cannot accept key/value writes (tracer.go:349-353 precedes the
checks at 355-363). -/
theorem C10_inject_noop_first (fmt : OTFormat) (c : Carrier) :
    inject OTSpanCtx.noop fmt c = (none, []) := by
  simp [inject, isNoopCtx]

/-- C9: Extract always returns a usable span context: for every lightstep
configuration, format and carrier — the unsupported-format, invalid-carrier,
corrupted-context and backend-extraction error cases included — the
returned context value is present (never the nil interface), so callers can
proceed unconditionally. -/
theorem C9_extract_total (ls : Option LSTracer) (fmt : OTFormat) (c : Carrier) :
    (extract ls fmt c).fst.isSome = true := by
  unfold extract
  split
  · rfl
  · split
    · rfl
    · split
      · rfl
      · split
        · rfl
        · split
          · rfl
          · split
            · rfl
            · rfl

/-- C8: for every non-empty (non-noop) context, Inject applies its checks in
order: an unsupported format yields the unsupported-format error, then a
carrier that does not accept key/value writes yields the invalid-carrier
error, then a context value that is not the concrete `*spanContext` kind
yields the invalid-context error; in each case nothing is written to the
carrier (tracer.go:355-368). -/
theorem C8_inject_errors (osc : OTSpanCtx) (fmt : OTFormat) (c : Carrier)
    (hosc : osc ≠ OTSpanCtx.noop) :
    (¬ (fmt = OTFormat.httpHeaders ∨ fmt = OTFormat.textMap) →
      inject osc fmt c = (some OTError.unsupportedFormat, [])) ∧
    ((fmt = OTFormat.httpHeaders ∨ fmt = OTFormat.textMap) → c.textMapWriter = false →
      inject osc fmt c = (some OTError.invalidCarrier, [])) ∧
    ((fmt = OTFormat.httpHeaders ∨ fmt = OTFormat.textMap) → c.textMapWriter = true →
      osc = OTSpanCtx.foreign → inject osc fmt c = (some OTError.invalidSpanContext, [])) := by
  have hn : isNoopCtx osc = false := by
    cases osc with
    | noop => exact absurd rfl hosc
    | real sc => rfl
    | foreign => rfl
  refine ⟨fun hf => ?_, fun hf hw => ?_, fun hf hw hforeign => ?_⟩
  · rw [not_or] at hf
    simp [inject, hn, hf.1, hf.2]
  · rcases hf with hf | hf <;> subst hf <;> simp [inject, hn, hw]
  · subst hforeign
    rcases hf with hf | hf <;> subst hf <;> simp [inject, isNoopCtx, hw]

/-- C8 witness: the three error cases at concrete inputs. -/
theorem C8_inject_errors_check :
    inject (OTSpanCtx.real emptySpanContext) OTFormat.binary ⟨[], true, true⟩ =
        (some OTError.unsupportedFormat, []) ∧
      inject (OTSpanCtx.real emptySpanContext) OTFormat.textMap ⟨[], false, true⟩ =
        (some OTError.invalidCarrier, []) ∧
      inject OTSpanCtx.foreign OTFormat.textMap ⟨[], true, true⟩ =
        (some OTError.invalidSpanContext, []) :=
  ⟨(C8_inject_errors _ _ _ (by decide)).1 (by decide),
    (C8_inject_errors _ _ _ (by decide)).2.1 (Or.inr rfl) rfl,
    (C8_inject_errors _ _ _ (by decide)).2.2 (Or.inr rfl) rfl rfl⟩

/-- C1 counterexample: the claimed round trip fails on a context whose
baggage key contains an uppercase letter: injecting trace ID 1, span ID 2,
baggage `A ↦ b` and extracting it back yields baggage `a ↦ b`, because
Extract lowercases the whole carrier key before trimming the baggage
prefix. -/
theorem C1_round_trip_fails :
    (inject
        (OTSpanCtx.real
          { TraceID := 1, SpanID := 2, Baggage := [("A", "b")], recordingGroup := none,
            recordingType := RecordingType.NotRecording, lightstep := none })
        OTFormat.textMap ⟨[], true, true⟩).fst = none ∧
      extract none OTFormat.textMap
          ⟨(inject
              (OTSpanCtx.real
                { TraceID := 1, SpanID := 2, Baggage := [("A", "b")], recordingGroup := none,
                  recordingType := RecordingType.NotRecording, lightstep := none })
              OTFormat.textMap ⟨[], true, true⟩).snd, true, true⟩ =
        (some (OTSpanCtx.real
          { TraceID := 1, SpanID := 2, Baggage := [("a", "b")], recordingGroup := none,
            recordingType := RecordingType.NotRecording, lightstep := none }), none) ∧
      [("a", "b")] ≠ [("A", "b")] := by
  refine ⟨by decide, by decide, by decide⟩

/-- C2 counterexample: a carrier key bearing the baggage prefix does not
keep the case of its suffix: extracting `ot-baggage-User ↦ 42` (with valid
IDs) produces the baggage key `user`, not `User`. -/
theorem C2_baggage_case_folded :
    extract none OTFormat.textMap
        ⟨[("ot-tracer-traceid", "1"), ("ot-tracer-spanid", "2"), ("ot-baggage-User", "42")],
          true, true⟩ =
      (some (OTSpanCtx.real
        { TraceID := 1, SpanID := 2, Baggage := [("user", "42")], recordingGroup := none,
          recordingType := RecordingType.NotRecording, lightstep := none }), none) ∧
    [("user", "42")] ≠ [("User", "42")] := by
  refine ⟨by decide, by decide⟩

/-- C3 counterexample: Inject decides emptiness by the `noopSpanContext`
type, not by zero IDs: injecting a concrete `*spanContext` whose trace and
span IDs are both zero still writes the two ID fields and the sampled
marker, contradicting the claim that every zero-ID context injects
nothing. -/
theorem C3_zero_context_still_writes :
    inject (OTSpanCtx.real emptySpanContext) OTFormat.textMap ⟨[], true, true⟩ =
      (none,
        [(fieldNameTraceID, "0"), (fieldNameSpanID, "0"), (fieldNameSampled, "true")]) ∧
    [(fieldNameTraceID, "0"), (fieldNameSpanID, "0"), (fieldNameSampled, "true")] ≠
      ([] : List (String × String)) := by
  refine ⟨by decide, by decide⟩

theorem extractLoop_skipAll (entries : List (String × String)) :
    ∀ sc, (∀ kv ∈ entries, goToLower kv.fst ≠ fieldNameTraceID ∧
        goToLower kv.fst ≠ fieldNameSpanID ∧
        (prefixBaggage.data).isPrefixOf (goToLower kv.fst).data = false) →
      extractLoop entries sc = Except.ok sc := by
  induction entries with
  | nil => intro sc _; rfl
  | cons kv rest ih =>
    obtain ⟨k, v⟩ := kv
    intro sc h
    have hk := h (k, v) (List.mem_cons_self _ _)
    simp only [extractLoop]
    rw [if_neg hk.1, if_neg hk.2.1, if_neg (by simp [hk.2.2]),
      ih sc (fun p hp => h p (List.mem_cons_of_mem _ hp))]

/-- C3 (amended): Inject writes nothing and succeeds for the canonical no-op
context — the `noopSpanContext` kind, not every context whose IDs are zero
(a concrete span context with zero IDs is still serialized, see the
counterexample) — and Extract of a readable text-map carrier containing no
recognized keys returns the canonical no-op context with no error. -/
theorem C3_noop_inject_extract :
    (∀ (fmt : OTFormat) (c : Carrier), inject OTSpanCtx.noop fmt c = (none, [])) ∧
    (∀ (ls : Option LSTracer) (fmt : OTFormat) (c : Carrier),
      (fmt = OTFormat.httpHeaders ∨ fmt = OTFormat.textMap) →
      c.textMapReader = true →
      (∀ kv ∈ c.entries, goToLower kv.fst ≠ fieldNameTraceID ∧
        goToLower kv.fst ≠ fieldNameSpanID ∧
        (prefixBaggage.data).isPrefixOf (goToLower kv.fst).data = false) →
      extract ls fmt c = (some OTSpanCtx.noop, none)) := by
  constructor
  · intro fmt c
    simp [inject, isNoopCtx]
  · intro ls fmt c hf hr hno
    rcases hf with h | h <;> subst h <;>
      (unfold extract
       rw [if_neg (by simp), if_neg (by simp [hr]), extractLoop_skipAll _ _ hno]
       simp [emptySpanContext])

/-- C3 witness: the no-op context injects nothing even into an invalid
carrier with an unsupported format, and a carrier holding only the sampled
marker and an unknown key extracts to the no-op context without error. -/
theorem C3_noop_check :
    inject OTSpanCtx.noop OTFormat.binary ⟨[], false, false⟩ = (none, []) ∧
      extract none OTFormat.textMap
          ⟨[("ot-tracer-sampled", "true"), ("junk", "x")], true, true⟩ =
        (some OTSpanCtx.noop, none) :=
  ⟨C3_noop_inject_extract.1 OTFormat.binary ⟨[], false, false⟩,
    C3_noop_inject_extract.2 none OTFormat.textMap
      ⟨[("ot-tracer-sampled", "true"), ("junk", "x")], true, true⟩
      (Or.inr rfl) rfl (by decide)⟩

/-- C2 (amended): in Extract, keys are matched case-insensitively; a
trace-ID or span-ID value that fails hexadecimal parsing makes the whole
call fail with the corrupted-context error; every key bearing the baggage
prefix adds a baggage entry whose key is the suffix of the LOWERCASED
carrier key (the case of the suffix is folded, not preserved as given); all
other unrecognized keys are ignored. Stated as: (1) a key lowercasing to
the trace-ID or span-ID field with an unparseable value fails the whole
Extract call with the corrupted-context error; (2)/(3) a key lowercasing to
the trace-ID/span-ID field with a parseable value populates that ID; (4) a
key whose lowercase form bears the baggage prefix adds the baggage entry
under the lowercased suffix; (5) unrecognized keys are ignored. -/
theorem C2_extract_key_handling :
    (∀ (ls : Option LSTracer) (fmt : OTFormat),
      (fmt = OTFormat.httpHeaders ∨ fmt = OTFormat.textMap) →
      ∀ (k v : String) (rest : List (String × String)) (w : Bool),
        (goToLower k = fieldNameTraceID ∨ goToLower k = fieldNameSpanID) →
        parseHex v = none →
        extract ls fmt ⟨(k, v) :: rest, w, true⟩ =
          (some OTSpanCtx.noop, some OTError.spanContextCorrupted)) ∧
    (∀ (k v : String) (rest : List (String × String)) (sc : SpanContext) (n : Nat),
      goToLower k = fieldNameTraceID → parseHex v = some n →
      extractLoop ((k, v) :: rest) sc = extractLoop rest { sc with TraceID := n }) ∧
    (∀ (k v : String) (rest : List (String × String)) (sc : SpanContext) (n : Nat),
      goToLower k = fieldNameSpanID → parseHex v = some n →
      extractLoop ((k, v) :: rest) sc = extractLoop rest { sc with SpanID := n }) ∧
    (∀ (k v : String) (rest : List (String × String)) (sc : SpanContext),
      goToLower k ≠ fieldNameTraceID → goToLower k ≠ fieldNameSpanID →
      (prefixBaggage.data).isPrefixOf (goToLower k).data = true →
      extractLoop ((k, v) :: rest) sc =
        extractLoop rest
          { sc with
            Baggage := mapPut sc.Baggage (goTrimPrefix (goToLower k) prefixBaggage) v }) ∧
    (∀ (k v : String) (rest : List (String × String)) (sc : SpanContext),
      goToLower k ≠ fieldNameTraceID → goToLower k ≠ fieldNameSpanID →
      (prefixBaggage.data).isPrefixOf (goToLower k).data = false →
      extractLoop ((k, v) :: rest) sc = extractLoop rest sc) := by
  refine ⟨?_, ?_, ?_, ?_, ?_⟩
  · intro ls fmt hf k v rest w hk hv
    have hloop : extractLoop ((k, v) :: rest) emptySpanContext =
        Except.error OTError.spanContextCorrupted := by
      rcases hk with hk | hk
      · simp only [extractLoop]
        rw [if_pos hk, hv]
      · simp only [extractLoop]
        rw [hk, if_neg (by decide : ¬ (fieldNameSpanID = fieldNameTraceID)), if_pos rfl, hv]
    rcases hf with h | h <;> subst h <;>
      (unfold extract
       rw [if_neg (by simp), if_neg (by simp), hloop])
  · intro k v rest sc n hk hv
    simp only [extractLoop]
    rw [if_pos hk, hv]
  · intro k v rest sc n hk hv
    simp only [extractLoop]
    rw [hk, if_neg (by decide : ¬ (fieldNameSpanID = fieldNameTraceID)), if_pos rfl, hv]
  · intro k v rest sc h1 h2 h3
    simp only [extractLoop]
    rw [if_neg h1, if_neg h2, if_pos h3]
  · intro k v rest sc h1 h2 h3
    simp only [extractLoop]
    rw [if_neg h1, if_neg h2, if_neg (by simp [h3])]

/-- C2 witness: a mixed-case trace-ID key with an unparseable value fails
the whole call with the corrupted-context error, and a mixed-case baggage
key is stored lowercased. -/
theorem C2_extract_key_check :
    extract none OTFormat.textMap ⟨[("OT-Tracer-TraceID", "zz")], true, true⟩ =
        (some OTSpanCtx.noop, some OTError.spanContextCorrupted) ∧
      extractLoop [("ot-baggage-User", "42")] emptySpanContext =
        Except.ok { emptySpanContext with Baggage := [("user", "42")] } := by
  constructor
  · exact C2_extract_key_handling.1 none OTFormat.textMap (Or.inr rfl)
      "OT-Tracer-TraceID" "zz" [] true (Or.inl (by decide)) (by decide)
  · rw [C2_extract_key_handling.2.2.2.1 "ot-baggage-User" "42" [] emptySpanContext
      (by decide) (by decide) (by decide)]
    rfl

/-- C1 (amended): with no external backend configured, for every span
context whose trace and span IDs are `uint64` values not both zero and
whose baggage keys are lowercase and duplicate-free, extracting from a
writable text-map carrier that the context was injected into yields a
context equal to it in trace ID, span ID and baggage map. (Without the
lowercase restriction the baggage keys come back case-folded, and a
zero-ID concrete context comes back as the no-op context; see the
counterexample.) -/
theorem C1_round_trip_lowercase (fmt : OTFormat)
    (hf : fmt = OTFormat.httpHeaders ∨ fmt = OTFormat.textMap)
    (sc : SpanContext) (c : Carrier) (hw : c.textMapWriter = true)
    (ht : sc.TraceID < 2 ^ 64) (hs : sc.SpanID < 2 ^ 64)
    (hnz : ¬ (sc.TraceID = 0 ∧ sc.SpanID = 0))
    (hlow : ∀ kv ∈ sc.Baggage, goToLower kv.fst = kv.fst)
    (hnd : (sc.Baggage.map Prod.fst).Nodup) :
    (inject (OTSpanCtx.real sc) fmt c).fst = none ∧
    extract none fmt ⟨(inject (OTSpanCtx.real sc) fmt c).snd, true, true⟩ =
      (some (OTSpanCtx.real
        { TraceID := sc.TraceID, SpanID := sc.SpanID, Baggage := sc.Baggage,
          recordingGroup := none, recordingType := RecordingType.NotRecording,
          lightstep := none }), none) := by
  have hi : inject (OTSpanCtx.real sc) fmt c = (none, injectWrites sc) := by
    rcases hf with h | h <;> subst h <;> simp [inject, isNoopCtx, hw]
  rw [hi]
  refine ⟨rfl, ?_⟩
  have hloop : extractLoop (injectWrites sc) emptySpanContext =
      Except.ok
        { TraceID := sc.TraceID, SpanID := sc.SpanID, Baggage := sc.Baggage,
          recordingGroup := none, recordingType := RecordingType.NotRecording,
          lightstep := none } := by
    unfold injectWrites
    rw [extractLoop_traceidEntry _ _ _ _ (parseHex_formatHex _ ht),
      extractLoop_spanidEntry _ _ _ _ (parseHex_formatHex _ hs),
      extractLoop_sampledEntry,
      extractLoop_bagmap sc.Baggage _ hlow (by simpa using hnd)]
    simp [emptySpanContext]
  rcases hf with h | h <;> subst h <;>
    (unfold extract
     rw [if_neg (by simp), if_neg (by simp), hloop]
     simp only []
     rw [if_neg hnz])

/-- C1 witness: the spec's own scenario — baggage `user ↦ 42` with concrete
IDs round-trips exactly. -/
theorem C1_round_trip_check :
    (inject
        (OTSpanCtx.real
          { TraceID := 3, SpanID := 5, Baggage := [("user", "42")], recordingGroup := none,
            recordingType := RecordingType.NotRecording, lightstep := none })
        OTFormat.textMap ⟨[], true, true⟩).fst = none ∧
      extract none OTFormat.textMap
          ⟨(inject
              (OTSpanCtx.real
                { TraceID := 3, SpanID := 5, Baggage := [("user", "42")],
                  recordingGroup := none, recordingType := RecordingType.NotRecording,
                  lightstep := none })
              OTFormat.textMap ⟨[], true, true⟩).snd, true, true⟩ =
        (some (OTSpanCtx.real
          { TraceID := 3, SpanID := 5, Baggage := [("user", "42")], recordingGroup := none,
            recordingType := RecordingType.NotRecording, lightstep := none }), none) :=
  C1_round_trip_lowercase OTFormat.textMap (Or.inr rfl) _ ⟨[], true, true⟩ rfl
    (by decide) (by decide) (by decide) (by decide) (by decide)

/-! ### StartSpan lemmas -/

/-- The references contributed by a list of options, in order. -/
def optRefs : List StartSpanOption → List (RefType × Option OTSpanCtx)
  | [] => []
  | StartSpanOption.spanReference ty c :: rest => (ty, c) :: optRefs rest
  | _ :: rest => optRefs rest

/-- Is the option the `Recordable` option? -/
def isRecordableOpt : StartSpanOption → Bool
  | StartSpanOption.recordableOpt => true
  | _ => false

/-- The first reference holding a concrete span context, skipping nil and
noop contexts. -/
def firstParent : List (RefType × Option OTSpanCtx) → Option (RefType × SpanContext)
  | [] => none
  | (ty, some (OTSpanCtx.real sc)) :: _ => some (ty, sc)
  | _ :: rest => firstParent rest

theorem foldl_applyOpt_references (opts : List StartSpanOption) :
    ∀ acc : StartSpanOptions × Bool,
      (opts.foldl applyOpt acc).fst.References = acc.fst.References ++ optRefs opts := by
  induction opts with
  | nil => intro acc; simp [optRefs]
  | cons o rest ih =>
    intro acc
    rw [List.foldl_cons, ih]
    cases o <;> simp [applyOpt, optRefs]

theorem buildOptions_references (opts : List StartSpanOption) :
    (buildOptions opts).fst.References = optRefs opts := by
  unfold buildOptions
  rw [foldl_applyOpt_references]
  rfl

theorem foldl_applyOpt_recordable (opts : List StartSpanOption) :
    ∀ acc : StartSpanOptions × Bool,
      (opts.foldl applyOpt acc).snd = (acc.snd || opts.any isRecordableOpt) := by
  induction opts with
  | nil => intro acc; simp
  | cons o rest ih =>
    intro acc
    rw [List.foldl_cons, ih]
    cases o <;> simp [applyOpt, isRecordableOpt]

theorem buildOptions_recordable (opts : List StartSpanOption) :
    (buildOptions opts).snd = opts.any isRecordableOpt := by
  unfold buildOptions
  rw [foldl_applyOpt_recordable]
  rfl

theorem findParent_eq_firstParent :
    ∀ refs : List (RefType × Option OTSpanCtx),
      (∀ p ∈ refs, p.snd ≠ some OTSpanCtx.foreign) →
      findParent refs = Except.ok (firstParent refs) := by
  intro refs
  induction refs with
  | nil => intro _; rfl
  | cons p rest ih =>
    intro h
    obtain ⟨ty, c⟩ := p
    have hrest : ∀ p ∈ rest, p.snd ≠ some OTSpanCtx.foreign :=
      fun p hp => h p (List.mem_cons_of_mem _ hp)
    cases c with
    | none => simpa [findParent, firstParent] using ih hrest
    | some ctx =>
      cases ctx with
      | noop => simpa [findParent, firstParent] using ih hrest
      | real sc => rfl
      | foreign =>
        exact absurd rfl (h (ty, some OTSpanCtx.foreign) (List.mem_cons_self _ _))

theorem firstParent_mem :
    ∀ (refs : List (RefType × Option OTSpanCtx)) (ty : RefType) (sc : SpanContext),
      firstParent refs = some (ty, sc) → (ty, some (OTSpanCtx.real sc)) ∈ refs := by
  intro refs
  induction refs with
  | nil => intro ty sc h; exact absurd h (by simp [firstParent])
  | cons p rest ih =>
    intro ty sc h
    obtain ⟨ty2, c⟩ := p
    cases c with
    | none => exact List.mem_cons_of_mem _ (ih ty sc h)
    | some ctx =>
      cases ctx with
      | noop => exact List.mem_cons_of_mem _ (ih ty sc h)
      | real sc2 =>
        simp only [firstParent, Option.some.injEq, Prod.mk.injEq] at h
        rw [← h.1, ← h.2]
        exact List.mem_cons_self _ _
      | foreign => exact List.mem_cons_of_mem _ (ih ty sc h)

theorem optRefs_mem :
    ∀ (opts : List StartSpanOption) (ty : RefType) (c : Option OTSpanCtx),
      (ty, c) ∈ optRefs opts → StartSpanOption.spanReference ty c ∈ opts := by
  intro opts
  induction opts with
  | nil => intro ty c h; exact absurd h (by simp [optRefs])
  | cons o rest ih =>
    intro ty c h
    cases o with
    | spanReference ty2 c2 =>
      rw [optRefs] at h
      rcases List.mem_cons.mp h with h | h
      · obtain ⟨h1, h2⟩ := Prod.mk.injEq .. ▸ h
        injection h with h1 h2
        rw [← h1, ← h2]
        exact List.mem_cons_self _ _
      · exact List.mem_cons_of_mem _ (ih ty c h)
    | startTimeOpt t => exact List.mem_cons_of_mem _ (ih ty c (by simpa [optRefs] using h))
    | tagsOpt ts => exact List.mem_cons_of_mem _ (ih ty c (by simpa [optRefs] using h))
    | recordableOpt => exact List.mem_cons_of_mem _ (ih ty c (by simpa [optRefs] using h))

theorem adjustLS_noneCfg (pInfo : Option (RefType × SpanContext)) :
    adjustLS pInfo none = none := by
  cases pInfo with
  | none => rfl
  | some p =>
    obtain ⟨ty, sc⟩ := p
    show (if sc.lightstep = none then none else (none : Option LSTracer)) = none
    split <;> rfl

theorem resolveParent_singleNoop (opts : List StartSpanOption)
    (h : isSingleNoopRef opts = true) : resolveParent opts = Except.ok none := by
  unfold isSingleNoopRef at h
  split at h
  · rfl
  · exact absurd h (by simp)

/-- The parent span ID recorded on a child: the parent's span ID, or 0 for
a root span. -/
def parentSpanIDOf : Option (RefType × SpanContext) → Nat
  | some (_, sc) => sc.SpanID
  | none => 0

/-- The recording type a span ends up with: the chosen type when a group is
attached, the zero value otherwise. -/
def recTypeFinal (rg : Option Nat) (rt : RecordingType) : RecordingType :=
  match rg with
  | some _ => rt
  | none => RecordingType.NotRecording

theorem applyTags_TraceID (l : List (String × String)) :
    ∀ sp : SpanData, (applyTags sp l).TraceID = sp.TraceID := by
  induction l with
  | nil => intro sp; rfl
  | cons kv rest ih =>
    intro sp
    show (applyTags (setTag sp kv.fst kv.snd) rest).TraceID = sp.TraceID
    rw [ih]
    rfl

theorem applyTags_lightstep (l : List (String × String)) :
    ∀ sp : SpanData, (applyTags sp l).lightstep = sp.lightstep := by
  induction l with
  | nil => intro sp; rfl
  | cons kv rest ih =>
    intro sp
    show (applyTags (setTag sp kv.fst kv.snd) rest).lightstep = sp.lightstep
    rw [ih]
    rfl

theorem applyTags_parentSpanID (l : List (String × String)) :
    ∀ sp : SpanData, (applyTags sp l).parentSpanID = sp.parentSpanID := by
  induction l with
  | nil => intro sp; rfl
  | cons kv rest ih =>
    intro sp
    show (applyTags (setTag sp kv.fst kv.snd) rest).parentSpanID = sp.parentSpanID
    rw [ih]
    rfl

theorem applyTags_recordingGroup (l : List (String × String)) :
    ∀ sp : SpanData, (applyTags sp l).recordingGroup = sp.recordingGroup := by
  induction l with
  | nil => intro sp; rfl
  | cons kv rest ih =>
    intro sp
    show (applyTags (setTag sp kv.fst kv.snd) rest).recordingGroup = sp.recordingGroup
    rw [ih]
    rfl

theorem applyTags_recordingType (l : List (String × String)) :
    ∀ sp : SpanData, (applyTags sp l).recordingType = sp.recordingType := by
  induction l with
  | nil => intro sp; rfl
  | cons kv rest ih =>
    intro sp
    show (applyTags (setTag sp kv.fst kv.snd) rest).recordingType = sp.recordingType
    rw [ih]
    rfl

theorem computeIDs_parent_traceID (env : Env) (lsTr : Option LSTracer) (ty : RefType)
    (P : SpanContext) (ids : Nat × Nat × Option LSSpanContext)
    (h : computeIDs env lsTr (some (ty, P)) = Except.ok ids) : ids.fst = P.TraceID := by
  cases lsTr with
  | none =>
    unfold computeIDs at h
    simp only [Except.ok.injEq] at h
    rw [← h]
  | some ls =>
    unfold computeIDs at h
    simp only [] at h
    cases hsl : P.lightstep with
    | none => rw [hsl] at h; exact absurd h (by simp)
    | some plc =>
      rw [hsl] at h
      simp only [] at h
      split at h
      · exact absurd h (by simp)
      · split at h
        · exact absurd h (by simp)
        · rename_i hne
          simp only [Except.ok.injEq] at h
          rw [← h]
          simpa using hne

theorem computeIDs_noneCfg_lightstep (env : Env) (pInfo : Option (RefType × SpanContext))
    (ids : Nat × Nat × Option LSSpanContext)
    (h : computeIDs env none pInfo = Except.ok ids) : ids.snd.snd = none := by
  unfold computeIDs at h
  simp only [Except.ok.injEq] at h
  rw [← h]

theorem mkRealSpan_fields (env : Env) (op : String) (sso : StartSpanOptions)
    (pInfo : Option (RefType × SpanContext)) (rg : Option Nat) (rt : RecordingType)
    (lsTr : Option LSTracer) (nt : Bool) (s : SpanData)
    (h : mkRealSpan env op sso pInfo rg rt lsTr nt = Except.ok (SpanResult.real s)) :
    ∃ ids, computeIDs env lsTr pInfo = Except.ok ids ∧
      s.TraceID = ids.fst ∧ s.lightstep = ids.snd.snd ∧
      s.parentSpanID = parentSpanIDOf pInfo ∧
      s.recordingGroup = rg ∧
      s.recordingType = recTypeFinal rg rt := by
  unfold mkRealSpan at h
  cases hc : computeIDs env lsTr pInfo with
  | error e => rw [hc] at h; exact absurd h (by simp)
  | ok ids =>
    rw [hc] at h
    simp only [Except.ok.injEq, SpanResult.real.injEq] at h
    subst h
    refine ⟨ids, rfl, ?_, ?_, ?_, ?_, ?_⟩ <;>
      (split <;>
        cases rg <;>
          simp [applyTags_TraceID, applyTags_lightstep, applyTags_parentSpanID,
            applyTags_recordingGroup, applyTags_recordingType, enableRecording,
            parentSpanIDOf, recTypeFinal])

theorem startSpan_real_fields (env : Env) (name : String) (opts : List StartSpanOption)
    (pInfo : Option (RefType × SpanContext)) (s : SpanData)
    (hres : resolveParent opts = Except.ok pInfo)
    (hrun : startSpan env name opts = Except.ok (SpanResult.real s)) :
    ∃ ids, computeIDs env (adjustLS pInfo env.lightstep) pInfo = Except.ok ids ∧
      s.TraceID = ids.fst ∧ s.lightstep = ids.snd.snd ∧
      s.parentSpanID = parentSpanIDOf pInfo ∧
      s.recordingGroup = recGroupOf pInfo env.freshGroup ∧
      s.recordingType = recTypeFinal (recGroupOf pInfo env.freshGroup) (recTypeOf pInfo) := by
  unfold startSpan at hrun
  by_cases hfp : isSingleNoopRef opts = true
  · rw [if_pos hfp] at hrun
    exact absurd hrun (by simp)
  · rw [if_neg hfp] at hrun
    unfold startSpanSlow at hrun
    unfold resolveParent at hres
    split at hrun
    · exact absurd hrun (by simp)
    · rw [hres] at hrun
      simp only [] at hrun
      split at hrun
      · exact absurd hrun (by simp)
      · exact mkRealSpan_fields env name (buildOptions opts).fst pInfo _ _ _ _ s hrun

deriving instance DecidableEq for Except

/-! ### Concrete fixtures used by the witnesses -/

/-- A `StartSpan` environment with tracing disabled. -/
def envPlain : Env :=
  { netTrace := false, lightstep := none, now := 10, randSpanID := 7,
    randTraceID := 9, freshGroup := 4 }

/-- A plain concrete parent context. -/
def ctxParent : SpanContext :=
  { TraceID := 11, SpanID := 22, Baggage := [], recordingGroup := none,
    recordingType := RecordingType.NotRecording, lightstep := none }

/-- A parent context whose baggage carries the snowball key. -/
def ctxSnowball : SpanContext :=
  { TraceID := 11, SpanID := 22, Baggage := [("sb", "1")], recordingGroup := none,
    recordingType := RecordingType.NotRecording, lightstep := none }

/-! ### Claims about StartSpan -/

/-- C4: for every real span returned by `StartSpan` whose resolved parent
reference carries the non-empty context `P`, the span's trace ID equals
`P`'s trace ID and its parent span ID equals `P`'s span ID. (When an
external backend is active the trace-ID check at tracer.go:293-298 panics —
modelled as `Except.error` — instead of returning a span, so every
*returned* span satisfies the equalities.) -/
theorem C4_parent_linkage (env : Env) (name : String) (opts : List StartSpanOption)
    (ty : RefType) (P : SpanContext) (s : SpanData)
    (hres : resolveParent opts = Except.ok (some (ty, P)))
    (hrun : startSpan env name opts = Except.ok (SpanResult.real s)) :
    s.TraceID = P.TraceID ∧ s.parentSpanID = P.SpanID := by
  obtain ⟨ids, hc, hT, _, hp, _, _⟩ := startSpan_real_fields env name opts _ s hres hrun
  exact ⟨by rw [hT, computeIDs_parent_traceID env _ ty P ids hc], hp⟩

/-- C4 witness: a recordable child of a concrete parent inherits trace ID 11
and records parent span ID 22. -/
theorem C4_parent_linkage_check :
    resolveParent
        [StartSpanOption.spanReference RefType.childOfRef (some (OTSpanCtx.real ctxParent)),
          StartSpanOption.recordableOpt] =
      Except.ok (some (RefType.childOfRef, ctxParent)) ∧
    startSpan envPlain "op"
        [StartSpanOption.spanReference RefType.childOfRef (some (OTSpanCtx.real ctxParent)),
          StartSpanOption.recordableOpt] =
      Except.ok (SpanResult.real
        { operation := "op", startTime := 10, TraceID := 11, SpanID := 7,
          parentSpanID := 22, Baggage := [], Tags := [], recordingGroup := none,
          recordingType := RecordingType.NotRecording, lightstep := none,
          netTr := false }) ∧
    ({ operation := "op", startTime := 10, TraceID := 11, SpanID := 7,
        parentSpanID := 22, Baggage := [], Tags := [], recordingGroup := none,
        recordingType := RecordingType.NotRecording, lightstep := none,
        netTr := false : SpanData }.TraceID = ctxParent.TraceID ∧
      { operation := "op", startTime := 10, TraceID := 11, SpanID := 7,
        parentSpanID := 22, Baggage := [], Tags := [], recordingGroup := none,
        recordingType := RecordingType.NotRecording, lightstep := none,
        netTr := false : SpanData }.parentSpanID = ctxParent.SpanID) :=
  ⟨by decide, by decide,
    C4_parent_linkage envPlain "op"
      [StartSpanOption.spanReference RefType.childOfRef (some (OTSpanCtx.real ctxParent)),
        StartSpanOption.recordableOpt]
      RefType.childOfRef ctxParent _ (by decide) (by decide)⟩

/-- C6: when the resolved parent context already carries an active recording
group, the child span is bound to that same group with the parent's
recording type; otherwise, when the parent's baggage carries a non-empty
snowball entry, the child is bound to a freshly allocated group with
SnowballRecording (tracer.go:235-242 and 310-313; the binding itself is
`enableRecording` from span.go, modelled from the spec). -/
theorem C6_recording_inheritance (env : Env) (name : String) (opts : List StartSpanOption)
    (ty : RefType) (P : SpanContext) (s : SpanData)
    (hres : resolveParent opts = Except.ok (some (ty, P)))
    (hrun : startSpan env name opts = Except.ok (SpanResult.real s)) :
    (∀ g, P.recordingGroup = some g →
      s.recordingGroup = some g ∧ s.recordingType = P.recordingType) ∧
    (P.recordingGroup = none → mapGet P.Baggage Snowball ≠ "" →
      s.recordingGroup = some env.freshGroup ∧
      s.recordingType = RecordingType.SnowballRecording) := by
  obtain ⟨ids, hc, _, _, _, hg, htype⟩ := startSpan_real_fields env name opts _ s hres hrun
  constructor
  · intro g hPg
    have hrg : recGroupOf (some (ty, P)) env.freshGroup = some g := by
      simp [recGroupOf, hPg]
    have hrt : recTypeOf (some (ty, P)) = P.recordingType := by
      simp [recTypeOf, hPg]
    rw [hrg] at hg htype
    rw [hrt] at htype
    exact ⟨hg, by simpa [recTypeFinal] using htype⟩
  · intro hPn hsb
    have hrg : recGroupOf (some (ty, P)) env.freshGroup = some env.freshGroup := by
      simp [recGroupOf, hPn, hsb]
    have hrt : recTypeOf (some (ty, P)) = RecordingType.SnowballRecording := by
      simp [recTypeOf, hPn, hsb]
    rw [hrg] at hg htype
    rw [hrt] at htype
    exact ⟨hg, by simpa [recTypeFinal] using htype⟩

/-- C6 witness: a child of a parent whose baggage carries `sb ↦ 1` is bound
to the freshly allocated group 4 with SnowballRecording. -/
theorem C6_recording_check :
    resolveParent
        [StartSpanOption.spanReference RefType.childOfRef
          (some (OTSpanCtx.real ctxSnowball))] =
      Except.ok (some (RefType.childOfRef, ctxSnowball)) ∧
    startSpan envPlain "op"
        [StartSpanOption.spanReference RefType.childOfRef
          (some (OTSpanCtx.real ctxSnowball))] =
      Except.ok (SpanResult.real
        { operation := "op", startTime := 10, TraceID := 11, SpanID := 7,
          parentSpanID := 22, Baggage := [("sb", "1")], Tags := [],
          recordingGroup := some 4, recordingType := RecordingType.SnowballRecording,
          lightstep := none, netTr := false }) ∧
    ({ operation := "op", startTime := 10, TraceID := 11, SpanID := 7,
        parentSpanID := 22, Baggage := [("sb", "1")], Tags := [],
        recordingGroup := some 4, recordingType := RecordingType.SnowballRecording,
        lightstep := none, netTr := false : SpanData }.recordingGroup =
          some envPlain.freshGroup ∧
      { operation := "op", startTime := 10, TraceID := 11, SpanID := 7,
        parentSpanID := 22, Baggage := [("sb", "1")], Tags := [],
        recordingGroup := some 4, recordingType := RecordingType.SnowballRecording,
        lightstep := none, netTr := false : SpanData }.recordingType =
          RecordingType.SnowballRecording) :=
  ⟨by decide, by decide,
    (C6_recording_inheritance envPlain "op"
      [StartSpanOption.spanReference RefType.childOfRef (some (OTSpanCtx.real ctxSnowball))]
      RefType.childOfRef ctxSnowball _ (by decide) (by decide)).2 rfl (by decide)⟩

/-- C7: when a parent with a non-empty context exists but that context
carries no external-backend shadow context, no shadow span is created for
the new span, even when an external backend is globally configured
(tracer.go:246-250 clears the backend before the shadow-span branch at
272-292). -/
theorem C7_backend_stickiness (env : Env) (name : String) (opts : List StartSpanOption)
    (ty : RefType) (P : SpanContext) (s : SpanData)
    (hres : resolveParent opts = Except.ok (some (ty, P)))
    (hP : P.lightstep = none)
    (hrun : startSpan env name opts = Except.ok (SpanResult.real s)) :
    s.lightstep = none := by
  obtain ⟨ids, hc, _, hl, _, _, _⟩ := startSpan_real_fields env name opts _ s hres hrun
  have hadj : adjustLS (some (ty, P)) env.lightstep = none := by
    simp [adjustLS, hP]
  rw [hadj] at hc
  rw [hl, computeIDs_noneCfg_lightstep env _ ids hc]

/-- A constant external-backend stand-in, used to show behavior when a
backend is globally configured. -/
def lsConst : LSTracer :=
  { newSpanCtx := fun _ => { traceID := 1, spanID := 1 },
    extractCtx := fun _ _ => Except.ok { traceID := 1, spanID := 1 } }

/-- `envPlain` with the external backend configured. -/
def envWithLS : Env :=
  { netTrace := false, lightstep := some lsConst, now := 10, randSpanID := 7,
    randTraceID := 9, freshGroup := 4 }

/-- C7 witness: even with a backend configured globally, a child of a
parent without a shadow context gets no shadow span. -/
theorem C7_backend_check :
    resolveParent
        [StartSpanOption.spanReference RefType.childOfRef (some (OTSpanCtx.real ctxParent)),
          StartSpanOption.recordableOpt] =
      Except.ok (some (RefType.childOfRef, ctxParent)) ∧
    ctxParent.lightstep = none ∧
    envWithLS.lightstep = some lsConst ∧
    startSpan envWithLS "op"
        [StartSpanOption.spanReference RefType.childOfRef (some (OTSpanCtx.real ctxParent)),
          StartSpanOption.recordableOpt] =
      Except.ok (SpanResult.real
        { operation := "op", startTime := 10, TraceID := 11, SpanID := 7,
          parentSpanID := 22, Baggage := [], Tags := [], recordingGroup := none,
          recordingType := RecordingType.NotRecording, lightstep := none,
          netTr := false }) ∧
    ({ operation := "op", startTime := 10, TraceID := 11, SpanID := 7,
        parentSpanID := 22, Baggage := [], Tags := [], recordingGroup := none,
        recordingType := RecordingType.NotRecording, lightstep := none,
        netTr := false : SpanData }.lightstep = none) :=
  ⟨by decide, rfl, rfl, by decide,
    C7_backend_stickiness envWithLS "op"
      [StartSpanOption.spanReference RefType.childOfRef (some (OTSpanCtx.real ctxParent)),
        StartSpanOption.recordableOpt]
      RefType.childOfRef ctxParent _ (by decide) rfl (by decide)⟩

/-- Does the option avoid triggering any recording and any panic: its
referenced context (when concrete) has no active group and no snowball
baggage, and is not a foreign context. -/
def refQuiet : StartSpanOption → Bool
  | StartSpanOption.spanReference _ (some (OTSpanCtx.real sc)) =>
    sc.recordingGroup.isNone && (mapGet sc.Baggage Snowball == "")
  | StartSpanOption.spanReference _ (some OTSpanCtx.foreign) => false
  | _ => true

/-- C5: when the debug feed is disabled, no external backend is configured,
no option is the forced-recordable flag, and no referenced context carries
an active recording group or snowball baggage (so no recording is inherited
or triggered), `StartSpan` returns the tracer's preallocated singleton
no-op span — the code only ever returns `&t.noopSpan` on these paths
(tracer.go:195, 204, 256), which the `SpanResult.noop` constructor models. -/
theorem C5_noop_singleton (env : Env) (name : String) (opts : List StartSpanOption)
    (h1 : env.netTrace = false) (h2 : env.lightstep = none)
    (h3 : StartSpanOption.recordableOpt ∉ opts)
    (h4 : ∀ o ∈ opts, refQuiet o = true) :
    startSpan env name opts = Except.ok SpanResult.noop := by
  unfold startSpan
  by_cases hfp : isSingleNoopRef opts = true
  · rw [if_pos hfp]
  · rw [if_neg hfp]
    unfold startSpanSlow
    by_cases hempty : opts = []
    · rw [if_pos ⟨hempty, h1, by rw [h2]; rfl⟩]
    · rw [if_neg (fun hh => hempty hh.1)]
      have hnf : ∀ p ∈ optRefs opts, p.snd ≠ some OTSpanCtx.foreign := by
        intro p hp hpf
        obtain ⟨pty, pc⟩ := p
        simp only at hpf
        subst hpf
        have hq := h4 _ (optRefs_mem opts pty (some OTSpanCtx.foreign) hp)
        simp [refQuiet] at hq
      have hrec : (buildOptions opts).snd = false := by
        rw [buildOptions_recordable, List.any_eq_false]
        intro o ho
        cases o with
        | recordableOpt => exact absurd ho h3
        | spanReference ty c => simp [isRecordableOpt]
        | startTimeOpt t => simp [isRecordableOpt]
        | tagsOpt ts => simp [isRecordableOpt]
      have hrg : recGroupOf (firstParent (optRefs opts)) env.freshGroup = none := by
        cases hfpi : firstParent (optRefs opts) with
        | none => rfl
        | some p =>
          obtain ⟨pty, psc⟩ := p
          have hq := h4 _ (optRefs_mem opts pty (some (OTSpanCtx.real psc))
            (firstParent_mem _ _ _ hfpi))
          simp [refQuiet] at hq
          simp [recGroupOf, hq.1, hq.2]
      rw [buildOptions_references, findParent_eq_firstParent _ hnf]
      simp only []
      rw [if_pos ⟨hrec, hrg, by rw [h2, adjustLS_noneCfg]; rfl, h1⟩]

/-- C5 witness: with everything disabled, a child of a plain parent is the
singleton no-op span. -/
theorem C5_noop_singleton_check :
    envPlain.netTrace = false ∧ envPlain.lightstep = none ∧
    StartSpanOption.recordableOpt ∉
      [StartSpanOption.spanReference RefType.childOfRef (some (OTSpanCtx.real ctxParent))] ∧
    (∀ o ∈ [StartSpanOption.spanReference RefType.childOfRef (some (OTSpanCtx.real ctxParent))],
      refQuiet o = true) ∧
    startSpan envPlain "op"
        [StartSpanOption.spanReference RefType.childOfRef (some (OTSpanCtx.real ctxParent))] =
      Except.ok SpanResult.noop :=
  ⟨rfl, rfl, by decide, by decide,
    C5_noop_singleton envPlain "op"
      [StartSpanOption.spanReference RefType.childOfRef (some (OTSpanCtx.real ctxParent))]
      rfl rfl (by decide) (by decide)⟩

end Tracing
